import Mathlib

/-!
Shallow embedding of the 3b1b-style epidemic simulation (src/objects.py,
src/main.py, src/controls.py) for checking the specification's claims.

Modelling conventions:
- Python floats (random draws, wall-clock timestamps, probability constants,
  frame times) are modelled as rationals `ℚ`; geometric vector arithmetic
  (directions, steering forces), which involves square roots via
  `Vector2.length`/`normalize`, is modelled over the reals `ℝ`.
- pygame `Rect` coordinates are integers; passing a float to a Rect
  operation truncates it toward zero (`truncR` below); `int(...)` on a
  nonnegative float is the floor (`pyIntQ` below covers both signs).
- `random.random()`, `random.randint`, `random.choice`, `random.sample` and
  `perf_counter()` are made explicit inputs (draws, indices, sampled id
  lists, a `now` timestamp).
- Python exceptions (`RuntimeError`, `IndexError`) are modelled with
  `Except String`.
- Purely visual work (surface fills, `pygame.draw` calls, `display_details`)
  mutates no simulation state and is omitted.
-/

/-! ## Constants (src/objects.py lines 17-32, Person class attributes) -/

def MAX_INFECTION_DURATION : ℚ := 60
def INFECTION_EVENT_INTERVAL : ℚ := 3
def SPREAD_CHANCE : ℚ := 33/100
def INFECTION_CHANCE : ℚ := 1/2
def REINFECTION_CHANCE : ℚ := 1/10
def INFECTED_DISTANCER_CHANCE : ℚ := 7/10
def RECOVERED_NONDISTANCER_CHANCE : ℚ := 6/10
def MORTALITY_CHANCE : ℚ := 1/10
def EARLY_TERMINATION_CHANCE : ℚ := 2/100
def TRAVEL_SPEED_MULTIPLIER : ℕ := 3
def PROXIMITY_COEFFICIENT : ℕ := 10

/-! ## Numeric helpers -/

/-- `controls.clamp`: `max(minimum, min(maximum, value))` (src/controls.py). -/
def clamp (value minimum maximum : ℤ) : ℤ := max minimum (min maximum value)

/-- Python `int()` applied to a rational-valued float: truncation toward zero. -/
def pyIntQ (q : ℚ) : ℤ := if q < 0 then -⌊-q⌋ else ⌊q⌋

/-- Truncation toward zero of a real, as pygame applies to float coordinates
passed to integer `Rect` operations such as `move_ip`. -/
noncomputable def truncR (r : ℝ) : ℤ := if r < 0 then -⌊-r⌋ else ⌊r⌋

/-! ## 2D vectors over ℝ (`pygame.Vector2`) -/

/-- `Vector2.length`. -/
noncomputable def lengthV (v : ℝ × ℝ) : ℝ := Real.sqrt (v.1 ^ 2 + v.2 ^ 2)

/-- `Vector2.normalize`: divide both components by the length. -/
noncomputable def normalizeV (v : ℝ × ℝ) : ℝ × ℝ := (v.1 / lengthV v, v.2 / lengthV v)

def addV (a b : ℝ × ℝ) : ℝ × ℝ := (a.1 + b.1, a.2 + b.2)

def scaleV (v : ℝ × ℝ) (c : ℝ) : ℝ × ℝ := (v.1 * c, v.2 * c)

def sumV (l : List (ℝ × ℝ)) : ℝ × ℝ := l.foldr addV (0, 0)

/-- Squared center-to-center distance between two integer points.  The
source compares `Vector2.length() < radius`; for integer coordinates and a
positive radius this is equivalent to comparing the squared distance with
the squared radius, which keeps the predicate decidable. -/
def distSq (a b : ℤ × ℤ) : ℤ := (a.1 - b.1) ^ 2 + (a.2 - b.2) ^ 2

/-! ## Regions and communities (src/objects.py `Region`, `Community`) -/

/-- `Region`: geometry as constructed (`size`, `center`, `border_thickness`)
plus the `active` flag set in `Region.__init__` and toggled externally. -/
structure Region where
  sizeW : ℤ
  sizeH : ℤ
  centerX : ℤ
  centerY : ℤ
  borderThickness : ℤ
  active : Bool
deriving DecidableEq, Repr

/-- `Region.left`: `int(self.rect.center[0]-self.size[0]/2) + self.border_thickness`. -/
def Region.left (r : Region) : ℤ := pyIntQ ((r.centerX : ℚ) - (r.sizeW : ℚ) / 2) + r.borderThickness

/-- `Region.top`: `int(self.rect.center[1]-self.size[1]/2) + self.border_thickness`. -/
def Region.top (r : Region) : ℤ := pyIntQ ((r.centerY : ℚ) - (r.sizeH : ℚ) / 2) + r.borderThickness

/-- `Region.right`: `self.left + self.size[0] - self.border_thickness`. -/
def Region.right (r : Region) : ℤ := r.left + r.sizeW - r.borderThickness

/-- `Region.bottom`: `self.top + self.size[1] - self.border_thickness`. -/
def Region.bottom (r : Region) : ℤ := r.top + r.sizeH - r.borderThickness

/-- `Community.center_size`. -/
def center_size : ℤ := 30

/-- `Community`: a `Region` subclass carrying the hub ("center") rectangle.
The hub rectangle is derived from the geometry exactly as
`Community.__init__` computes `absolute_center_rect`. -/
structure Community where
  toRegion : Region
deriving DecidableEq, Repr

/-- Left edge of `absolute_center_rect`:
`self.left + self.center_rect.left - self.border_thickness`.
`center_rect = surf.get_rect(center=(size[0]-15.0, size[1]-15.0), size=(30, 30))`
applies the kwargs in order: `center` is set while the rect still has the
full community size (so `x = (size[0]-15) - size[0]//2`), then `size`
resizes keeping the topleft.  Hence
`center_rect.left = (size[0] - center_size/2) - size[0]//2`, which puts the
hub near the community's center.  (Sizes are positive, so every integer
division convention agrees with Python `//` here.) -/
def Community.hubLeft (c : Community) : ℤ :=
  c.toRegion.left + ((c.toRegion.sizeW - center_size / 2) - c.toRegion.sizeW / 2)
    - c.toRegion.borderThickness

/-- Top edge of `absolute_center_rect` (same kwargs-order computation on
the vertical axis). -/
def Community.hubTop (c : Community) : ℤ :=
  c.toRegion.top + ((c.toRegion.sizeH - center_size / 2) - c.toRegion.sizeH / 2)
    - c.toRegion.borderThickness

/-- `absolute_center_rect.center` (a 30×30 rect: center is at `left+15, top+15`). -/
def Community.hubCenter (c : Community) : ℤ × ℤ := (c.hubLeft + 15, c.hubTop + 15)

/-- `Rect.collidepoint` on `absolute_center_rect`: inside test, inclusive on
the left/top edges and exclusive on the right/bottom edges. -/
def Community.hubContains (c : Community) (pt : ℤ × ℤ) : Prop :=
  c.hubLeft ≤ pt.1 ∧ pt.1 < c.hubLeft + center_size ∧
  c.hubTop ≤ pt.2 ∧ pt.2 < c.hubTop + center_size

instance (c : Community) (pt : ℤ × ℤ) : Decidable (c.hubContains pt) := by
  unfold Community.hubContains; infer_instance

/-- `Bounds`: all bounds associated with a person (src/objects.py `Bounds`). -/
structure Bounds where
  community : Community
  region : Region
deriving DecidableEq, Repr

/-! ## Person state -/

/-- `Person.State` (colors omitted: they only drive rendering). -/
inductive State where
  | SUSCEPTIBLE
  | INFECTED
  | RECOVERED
  | DECEASED
deriving DecidableEq, Repr

/-- The mutable simulation state of a `Person`.  `distancing_strength` holds
the numeric control value read through the `NumericVariable`. -/
structure Person where
  id : ℕ
  center : ℤ × ℤ
  state : State
  direction : ℝ × ℝ
  distancing : Bool
  distancing_strength : ℚ
  infected_start : Option ℚ
  infected_end : Option ℚ
  travel_target : Option Community
  bounds : Bounds
  last_event : ℚ

/-- `Person.radius`. -/
def Person.radius : ℤ := 5
/-- `Person.surf_size = radius*25`. -/
def Person.surf_size : ℤ := 125
/-- `Person.distancing_radius = radius*25`. -/
def Person.distancing_radius : ℤ := 125
/-- `Person.infection_radius = radius*10`. -/
def Person.infection_radius : ℤ := 50
/-- `Person.speed`. -/
def Person.speed : ℕ := 120

/-- `Person.active_bounds`: the community if it is active, else the region.
The sum keeps the two Python objects distinct, as the source compares them
with `==` (object identity for these classes). -/
def Person.active_bounds (p : Person) : Community ⊕ Region :=
  if p.bounds.community.toRegion.active then .inl p.bounds.community else .inr p.bounds.region

/-- The rectangle geometry of whichever bounds is active (a `Community`
exposes the inherited `Region` edge properties). -/
def Person.activeRegion (p : Person) : Region :=
  match p.active_bounds with
  | .inl c => c.toRegion
  | .inr r => r

def abLeft (p : Person) : ℤ := p.activeRegion.left
def abRight (p : Person) : ℤ := p.activeRegion.right
def abTop (p : Person) : ℤ := p.activeRegion.top
def abBottom (p : Person) : ℤ := p.activeRegion.bottom

/-! ## Random draws consumed by one tick of `Person.update` -/

/-- One tick's worth of `random.random()` / `random.randint` results, in the
order the source consumes them.  `spreadRoll` is the draw deciding whether
`spread` runs (its per-target draws live in `spreadTarget`); the two
mortality/recovery pairs feed the up-to-two `end_infection` calls (duration
expiry and early termination). -/
structure Draws where
  noise : ℚ
  noiseAngle : ℤ
  wall : ℚ
  wallAngle : ℤ
  spreadRoll : ℚ
  earlyRoll : ℚ
  durMortality : ℚ
  durRecover : ℚ
  earlyMortality : ℚ
  earlyRecover : ℚ

/-! ## Person operations (src/objects.py) -/

/-- `Vector2.rotate_ip(deg)`: rotation by an angle given in degrees. -/
noncomputable def rotateDeg (v : ℝ × ℝ) (deg : ℤ) : ℝ × ℝ :=
  let θ : ℝ := (deg : ℝ) * Real.pi / 180
  (v.1 * Real.cos θ - v.2 * Real.sin θ, v.1 * Real.sin θ + v.2 * Real.cos θ)

/-- `Person.stay_in_bounds`: clamp the center into the active bounds inset
by the agent radius on all sides (the source's outer `int(...)` is the
identity on these integer values). -/
def Person.stay_in_bounds (p : Person) : Person :=
  { p with center := (clamp p.center.1 (abLeft p + Person.radius) (abRight p - Person.radius),
                      clamp p.center.2 (abTop p + Person.radius) (abBottom p - Person.radius)) }

/-- `Person.avoid_walls`: snap the direction to the inward axis vector near
a wall of the active bounds, then with probability 0.5 rotate by a random
angle in [-80, 80]. -/
noncomputable def Person.avoid_walls (wallDraw : ℚ) (wallAngle : ℤ) (p : Person) : Person :=
  let hit : Option (ℝ × ℝ) :=
    if |p.center.1 - abLeft p| < 10 then some (1, 0)
    else if |p.center.1 - abRight p| < 10 then some (-1, 0)
    else if |p.center.2 - abTop p| < 10 then some (0, 1)
    else if |p.center.2 - abBottom p| < 10 then some (0, -1)
    else none
  match hit with
  | none => p
  | some d =>
      { p with direction := if wallDraw < 1/2 then rotateDeg d wallAngle else d }

/-- `Person.get_nearby`: broad phase (`colliderect` of the two 125×125
person rects, target not deceased, not mid-travel, same active bounds) then
narrow phase (center distance below `distancing_radius`).  A person's rect
has `left = center - surf_size // 2`; `colliderect` is a strict-overlap
test, rendered here directly on centers. -/
def Person.get_nearby (persons : List Person) (p : Person) : List Person :=
  let nears := persons.filter (fun o => decide (
    (|p.center.1 - o.center.1| < Person.surf_size ∧ |p.center.2 - o.center.2| < Person.surf_size) ∧
    o.state ≠ State.DECEASED ∧
    o.travel_target = none ∧
    p.active_bounds = o.active_bounds))
  nears.filter (fun o => decide (distSq p.center o.center < Person.distancing_radius ^ 2))

/-- `Person.get_infected`: `jit` is the `random.random()` draw backdating
`last_event`, `dd` the draw rerolling `distancing`. -/
def Person.get_infected (now jit dd : ℚ) (p : Person) : Person :=
  { p with infected_start := some now,
           infected_end := none,
           last_event := max 0 (now - jit * 5),
           state := State.INFECTED,
           distancing := decide (dd ≤ INFECTED_DISTANCER_CHANCE) }

/-- `Person.recover` (the `print` is I/O only). -/
def Person.recover (dd : ℚ) (p : Person) : Person :=
  { p with state := State.RECOVERED,
           distancing := decide (dd ≤ RECOVERED_NONDISTANCER_CHANCE) }

/-- `Person.die`. -/
def Person.die (p : Person) : Person :=
  { p with state := State.DECEASED }

/-- `Person.end_infection`: stamp `infected_end`, then mortality roll
(note the source's `<=`). -/
def Person.end_infection (now mort dd : ℚ) (p : Person) : Person :=
  let p1 := { p with infected_end := some now }
  if mort ≤ MORTALITY_CHANCE then p1.die else p1.recover dd

/-- The per-target transmission probability used in `Person.spread`:
`{SUSCEPTIBLE: INFECTION_CHANCE, RECOVERED: REINFECTION_CHANCE}.get(state, 0)`. -/
def infection_chance (s : State) : ℚ :=
  match s with
  | State.SUSCEPTIBLE => INFECTION_CHANCE
  | State.RECOVERED => REINFECTION_CHANCE
  | _ => 0

/-- One iteration of `Person.spread`'s target loop:
`if other is not self and random.random() < chance: other.get_infected()`.
Object identity is modelled by the unique `id`. -/
def Person.spreadTarget (selfP other : Person) (draw jit dd now : ℚ) : Person :=
  if other.id ≠ selfP.id ∧ draw < infection_chance other.state
  then other.get_infected now jit dd
  else other

/-- `Person.spread`: restrict `nears` to the infection radius, then run the
per-target transmission attempt on each; returns the updated targets
(the source mutates them in place).  `draws i`, `jits i`, `dds i` are the
random draws consumed for the i-th target. -/
def Person.spread (selfP : Person) (nears : List Person)
    (draws jits dds : ℕ → ℚ) (now : ℚ) : List Person :=
  let nears := nears.filter (fun o => decide (distSq selfP.center o.center < Person.infection_radius ^ 2))
  nears.enum.map (fun io => Person.spreadTarget selfP io.2 (draws io.1) (jits io.1) (dds io.1) now)

/-- `Person.handle_infection`: raises `RuntimeError` when `infected_start`
is unset; otherwise forces end-of-infection after `MAX_INFECTION_DURATION`,
and, throttled by `INFECTION_EVENT_INTERVAL`, rolls the spread chance (the
spread itself only mutates the targets, never `self`; see `Person.spread`)
and the early-termination chance, then stamps `last_event`. -/
def Person.handle_infection (now : ℚ) (dr : Draws) (p : Person) : Except String Person :=
  match p.infected_start with
  | none => Except.error ("RuntimeError: Infection start time not found")
  | some t0 =>
      let p1 := if now - t0 ≥ MAX_INFECTION_DURATION then p.end_infection now dr.durMortality dr.durRecover else p
      if p1.travel_target = none ∧ now - p1.last_event ≥ INFECTION_EVENT_INTERVAL then
        let p2 := if dr.earlyRoll < EARLY_TERMINATION_CHANCE
                  then p1.end_infection now dr.earlyMortality dr.earlyRecover else p1
        Except.ok { p2 with last_event := now }
      else Except.ok p1

/-- The weighted repulsion vectors of `Person.social_distance`:
`diff_vector * PROXIMITY_COEFFICIENT * (1 - length/distancing_radius)**2`
for each neighbor, skipping separation vectors of length 0 (the walrus
guard `if (diff_vector := ...).length()`). -/
noncomputable def sdForces (p : Person) (nears : List Person) : List (ℝ × ℝ) :=
  nears.filterMap (fun o =>
    let dv : ℤ × ℤ := (p.center.1 - o.center.1, p.center.2 - o.center.2)
    if dv ≠ (0, 0) then
      some (scaleV ((dv.1 : ℝ), (dv.2 : ℝ))
        ((PROXIMITY_COEFFICIENT : ℝ) *
          (1 - lengthV ((dv.1 : ℝ), (dv.2 : ℝ)) / (Person.distancing_radius : ℝ)) ^ 2))
    else none)

/-- `reduce(lambda a, b: a + b, forces)/len(forces)`. -/
noncomputable def sdForceAvg (p : Person) (nears : List Person) : ℝ × ℝ :=
  scaleV (sumV (sdForces p nears)) (1 / ((sdForces p nears).length : ℝ))

/-- `if force and force.length(): force = force.normalize()`. -/
noncomputable def sdForceNorm (p : Person) (nears : List Person) : ℝ × ℝ :=
  open Classical in
  if lengthV (sdForceAvg p nears) ≠ 0 then normalizeV (sdForceAvg p nears) else sdForceAvg p nears

/-- `intermediate = self.direction + force*self.distancing_strength.value`. -/
noncomputable def sdIntermediate (p : Person) (nears : List Person) : ℝ × ℝ :=
  addV p.direction (scaleV (sdForceNorm p nears) (p.distancing_strength : ℝ))

/-- `Person.social_distance`: update the direction from the neighbor
repulsion forces; keep the previous direction when the blended vector is
degenerate. -/
noncomputable def Person.social_distance (nears : List Person) (p : Person) : Person :=
  open Classical in
  if (sdForces p nears).isEmpty then p
  else { p with direction :=
          if lengthV (sdIntermediate p nears) ≠ 0 then normalizeV (sdIntermediate p nears)
          else p.direction }

/-- `Person.travel`: raise without a target; otherwise steer straight at the
target community's hub center at `speed * TRAVEL_SPEED_MULTIPLIER`, and on
overlapping the hub rectangle after the move, adopt the target community and
clear the travel target.  (`if to_target and to_target.length():` is a
nonzero-vector test.) -/
noncomputable def Person.travel (ft : ℚ) (p : Person) : Except String Person :=
  match p.travel_target with
  | none => Except.error ("RuntimeError: No target community found")
  | some T =>
      let toT : ℤ × ℤ := (T.hubCenter.1 - p.center.1, T.hubCenter.2 - p.center.2)
      let dir : ℝ × ℝ := if toT ≠ (0, 0) then normalizeV ((toT.1 : ℝ), (toT.2 : ℝ)) else p.direction
      let c2 : ℤ × ℤ :=
        (p.center.1 + truncR (dir.1 * (Person.speed : ℝ) * (TRAVEL_SPEED_MULTIPLIER : ℝ) * (ft : ℝ)),
         p.center.2 + truncR (dir.2 * (Person.speed : ℝ) * (TRAVEL_SPEED_MULTIPLIER : ℝ) * (ft : ℝ)))
      let p2 := { p with direction := dir, center := c2 }
      if T.hubContains c2 then
        Except.ok { p2 with bounds := { p2.bounds with community := T }, travel_target := none }
      else
        Except.ok p2

/-- The first two lines of `Person.operate`:
`if random.random() < 0.5: self.direction.rotate_ip(random.randint(-10, 10))`. -/
noncomputable def noiseStep (dr : Draws) (p : Person) : Person :=
  if dr.noise < 1/2 then { p with direction := rotateDeg p.direction dr.noiseAngle } else p

/-- `Person.operate`'s infection-handling line:
`if self.state == self.State.INFECTED and self.infected_start:
self.handle_infection(nears)`. -/
noncomputable def infectionStep (now : ℚ) (dr : Draws) (p : Person) : Except String Person :=
  if p.state = State.INFECTED ∧ p.infected_start ≠ none
  then p.handle_infection now dr
  else Except.ok p

/-- The tail of `Person.operate`: optional social distancing, then
`self.rect.move_ip(direction * speed * frametime)`, then
`self.stay_in_bounds()`. -/
noncomputable def motionStep (nears : List Person) (distT : Bool) (ft : ℚ) (p3 : Person) :
    Person :=
  let p4 := if distT ∧ p3.distancing ∧ ¬ nears.isEmpty then p3.social_distance nears else p3
  let p5 := { p4 with center :=
    (p4.center.1 + truncR (p4.direction.1 * (Person.speed : ℝ) * (ft : ℝ)),
     p4.center.2 + truncR (p4.direction.2 * (Person.speed : ℝ) * (ft : ℝ))) }
  p5.stay_in_bounds

/-- `Person.operate`: direction noise, wall avoidance, neighbor query,
infection handling (only when INFECTED with a recorded start), social
distancing, movement, containment.  `display_details` only draws. -/
noncomputable def Person.operate (persons : List Person) (ft : ℚ)
    (_dirT _netT distT : Bool) (dr : Draws) (now : ℚ) (p : Person) : Except String Person :=
  let p2 := (noiseStep dr p).avoid_walls dr.wall dr.wallAngle
  (infectionStep now dr p2).map (motionStep (Person.get_nearby persons p2) distT ft)

/-- `Person.update`: deceased persons only get drawn; mid-travel persons
run `travel`; everyone else runs `operate`. -/
noncomputable def Person.update (persons : List Person) (ft : ℚ)
    (dirT netT distT : Bool) (dr : Draws) (now : ℚ) (p : Person) : Except String Person :=
  if p.state = State.DECEASED then Except.ok p
  else if p.travel_target.isSome then p.travel ft
  else p.operate persons ft dirT netT distT dr now

/-! ## Chart (src/objects.py `Chart`) -/

/-- One slot of `Chart.data`: either a 4-tuple of population fractions in
the order of `chart_values` (infected, recovered, susceptible, deceased) or
an event-marker color. -/
abbrev ChartEntry := (ℚ × ℚ × ℚ × ℚ) ⊕ (ℕ × ℕ × ℕ)

/-- `Chart.update_interval`. -/
def chart_update_interval : ℚ := 1

/-- `Chart` state: `width` is `surf.get_size()[0]`, i.e. `size[0]` from the
constructor.  (`snapshot_width = 1`, so `update` appends one slot.) -/
structure Chart where
  width : ℕ
  data : List ChartEntry
  last_update : ℚ
  event_marker : Option (ℕ × ℕ × ℕ)

/-- `Chart.__init__`: `self.data = [(0.0, 0.0, 1.0, 0.0)]*size[0]`. -/
def Chart.init (width : ℕ) (now : ℚ) : Chart :=
  { width := width,
    data := List.replicate width (Sum.inl (0, 0, 1, 0)),
    last_update := now,
    event_marker := none }

/-- Python's `l[i:]` for an `int` index `i` that may be negative. -/
def pySliceFrom (l : List α) (i : ℤ) : List α :=
  if 0 ≤ i then l.drop i.toNat else l.drop (l.length - i.natAbs)

/-- `len(self.data)` — the quantity the buffer-length claims are about. -/
def Chart.dataLength (c : Chart) : ℕ := c.data.length

/-- `total = sum(data.values())`: the dictionary built in src/main.py line
290 has exactly the four state names as keys. -/
def chartTotal (counts : State → ℕ) : ℕ :=
  counts State.SUSCEPTIBLE + counts State.INFECTED
    + counts State.RECOVERED + counts State.DECEASED

/-- The data-recording half of `Chart.update` (the rest of the method only
draws).  When the sampling interval has elapsed: append the pending event
marker (consuming it), or else build the proportional sample — the
divisions `data[value[0]]/total` raise `ZeroDivisionError` when the
population is empty — append it and truncate the head overflow
(`if (overflow := len(self.data) - chart_width):`); then stamp
`last_update` (source line 427, reached only when no exception was
raised).  `counts` is the state-count dictionary built in src/main.py
line 290. -/
def Chart.update (c : Chart) (now : ℚ) (counts : State → ℕ) : Except String Chart :=
  if now - c.last_update ≥ chart_update_interval then
    (match c.event_marker with
     | some m => Except.ok { c with data := c.data ++ [Sum.inr m], event_marker := none }
     | none =>
         if chartTotal counts = 0 then
           Except.error ("ZeroDivisionError: division by zero")
         else
           let total : ℚ := (chartTotal counts : ℚ)
           let entry : ChartEntry := Sum.inl
             ((counts State.INFECTED : ℚ) / total, (counts State.RECOVERED : ℚ) / total,
              (counts State.SUSCEPTIBLE : ℚ) / total, (counts State.DECEASED : ℚ) / total)
           let data := c.data ++ [entry]
           let overflow : ℤ := (data.length : ℤ) - (c.width : ℤ)
           if overflow ≠ 0 then Except.ok { c with data := pySliceFrom data overflow }
           else Except.ok { c with data := data }).map
      (fun c2 : Chart => { c2 with last_update := now })
  else Except.ok c

/-! ## Event handlers (src/main.py) -/

/-- `random.choice(seq)`: raises `IndexError` on an empty sequence; the
selection index is an explicit input, reduced modulo the length. -/
def pyChoice (l : List α) (ix : ℕ) : Option α := l.get? (ix % l.length)

/-- The candidate pool of the `INFECT_ONE_PERSON` handler:
`[person for person in persons if person.state in {SUSCEPTIBLE, RECOVERED}]`. -/
def infectible_pool (persons : List Person) : List Person :=
  persons.filter (fun q => decide (q.state = State.SUSCEPTIBLE ∨ q.state = State.RECOVERED))

/-- The `INFECT_ONE_PERSON` handler (src/main.py lines 249-253):
`random.choice` over the pool, then `person.get_infected()`.  An empty pool
makes `random.choice` raise `IndexError`, which is uncaught in the event
loop. -/
def infectOnePerson (persons : List Person) (ix : ℕ) (now jit dd : ℚ) :
    Except String (List Person) :=
  match pyChoice (infectible_pool persons) ix with
  | none => Except.error ("IndexError: Cannot choose from an empty sequence")
  | some chosen =>
      Except.ok (persons.map (fun q => if q.id = chosen.id then q.get_infected now jit dd else q))

/-- The `ADJUST_DISTANCING_PERCENT` handler (src/main.py lines 269-279).
`chosen` is the list of ids of the persons returned by
`random.sample(population, k=abs(diff))`; the flips are applied through the
sampled object references, modelled here by the unique ids. -/
def adjustDistancingPercent (percent : ℚ) (persons : List Person) (chosen : List ℕ) :
    List Person :=
  let target : ℤ := pyIntQ (percent / 100 * (persons.length : ℚ))
  let distancers := persons.filter (fun q => q.distancing)
  let diff : ℤ := target - (distancers.length : ℤ)
  if diff ≠ 0 then
    let newVal : Bool := decide (0 < diff)
    persons.map (fun q => if q.id ∈ chosen then { q with distancing := newVal } else q)
  else persons

/-- The sampling pool the handler draws from: `non_distancers` when more
distancers are needed (`diff > 0`), `distancers` otherwise. -/
def adjustPool (percent : ℚ) (persons : List Person) : List Person :=
  let target : ℤ := pyIntQ (percent / 100 * (persons.length : ℚ))
  let diff : ℤ := target - ((persons.filter (fun q => q.distancing)).length : ℤ)
  persons.filter (fun q => q.distancing ≠ decide (0 < diff))

/-- Python's built-in `round` to an integer: nearest, ties to even (the
specification's `round(distancing_percent/100 * population_size)`). -/
def pyRound (q : ℚ) : ℤ :=
  if q - (⌊q⌋ : ℚ) = 1/2 then (if 2 ∣ ⌊q⌋ then ⌊q⌋ else ⌊q⌋ + 1) else round q

/-! ## Views used by the claim statements -/

/-- Whether a person's center lies within its active bounds inset by the
agent radius on all sides. -/
def inBoundsInsetB (p : Person) : Bool :=
  decide (abLeft p + Person.radius ≤ p.center.1 ∧ p.center.1 ≤ abRight p - Person.radius ∧
          abTop p + Person.radius ≤ p.center.2 ∧ p.center.2 ≤ abBottom p - Person.radius)

/-- The infection-related fields of a person: state, start, end. -/
def infectionView (p : Person) : State × Option ℚ × Option ℚ :=
  (p.state, p.infected_start, p.infected_end)

/-- What one `travel` tick must do to a person `p` with target `T`,
producing `q`: normal operation suspended (state, infection bookkeeping and
distancing untouched), steering straight at the hub center of `T` at
`speed * TRAVEL_SPEED_MULTIPLIER`, and community reassignment plus target
clearing exactly when the moved center lies inside the hub rectangle. -/
noncomputable def travelSpec (p q : Person) (T : Community) (ft : ℚ) : Prop :=
  q.state = p.state ∧ q.infected_start = p.infected_start ∧
  q.infected_end = p.infected_end ∧ q.distancing = p.distancing ∧
  q.direction = (if ((T.hubCenter.1 - p.center.1 : ℤ), (T.hubCenter.2 - p.center.2 : ℤ)) ≠ ((0 : ℤ), (0 : ℤ))
                 then normalizeV (((T.hubCenter.1 - p.center.1 : ℤ) : ℝ), ((T.hubCenter.2 - p.center.2 : ℤ) : ℝ))
                 else p.direction) ∧
  q.center = (p.center.1 + truncR (q.direction.1 * (Person.speed : ℝ) * (TRAVEL_SPEED_MULTIPLIER : ℝ) * (ft : ℝ)),
              p.center.2 + truncR (q.direction.2 * (Person.speed : ℝ) * (TRAVEL_SPEED_MULTIPLIER : ℝ) * (ft : ℝ))) ∧
  (T.hubContains q.center → q.bounds.community = T ∧ q.travel_target = none) ∧
  (¬ T.hubContains q.center → q.bounds.community = p.bounds.community ∧ q.travel_target = some T)

/-! ## Concrete instances used to instantiate the claims -/

/-- A 400×400 community with border 2 centered at (200, 200): edges 2..400. -/
def regA : Region := { sizeW := 400, sizeH := 400, centerX := 200, centerY := 200, borderThickness := 2, active := true }

def comA : Community := { toRegion := regA }

/-- A second 400×400 community centered at (600, 200): edges 402..800,
hub rectangle x ∈ [585, 615), y ∈ [185, 215), hub center (600, 200). -/
def regT : Region := { sizeW := 400, sizeH := 400, centerX := 600, centerY := 200, borderThickness := 2, active := true }

def comT : Community := { toRegion := regT }

/-- The outer field region. -/
def regField : Region := { sizeW := 1460, sizeH := 1080, centerX := 735, centerY := 540, borderThickness := 10, active := true }

def boundsA : Bounds := { community := comA, region := regField }

/-- A person with the given id, center, state and bounds, and neutral
remaining fields. -/
def basicPerson (i : ℕ) (c : ℤ × ℤ) (s : State) (b : Bounds) : Person :=
  { id := i, center := c, state := s, direction := (1, 0), distancing := false,
    distancing_strength := 1, infected_start := none, infected_end := none,
    travel_target := none, bounds := b, last_event := 0 }

/-- Draws under which no optional random behavior fires. -/
def calmDraws : Draws :=
  { noise := 1, noiseAngle := 0, wall := 1, wallAngle := 0, spreadRoll := 1,
    earlyRoll := 1, durMortality := 1, durRecover := 1, earlyMortality := 1, earlyRecover := 1 }

/-- Mid-travel person for C1: inside community A, traveling to `comT`,
on the horizontal line through `comT`'s hub center. -/
def c1Person : Person :=
  { basicPerson 1 (385, 200) State.SUSCEPTIBLE boundsA with travel_target := some comT }

/-- An in-bounds resident of community A. -/
def c1wPerson : Person := basicPerson 21 (200, 200) State.SUSCEPTIBLE boundsA

def c2Person : Person := basicPerson 2 (200, 200) State.DECEASED boundsA

def c3Spreader : Person := { basicPerson 3 (200, 200) State.INFECTED boundsA with infected_start := some 0 }

def c3Target : Person := basicPerson 4 (205, 200) State.DECEASED boundsA

/-- Chart for the C4 counterexample: width 3, full buffer, pending marker. -/
def c4Chart : Chart :=
  { width := 3, data := List.replicate 3 (Sum.inl (0, 0, 1, 0)), last_update := 0,
    event_marker := some (255, 0, 0) }

/-- Chart for the C4 witness: width 3, full buffer, no pending marker. -/
def c4wChart : Chart :=
  { width := 3, data := List.replicate 3 (Sum.inl (0, 0, 1, 0)), last_update := 0,
    event_marker := none }

/-- Uniform population counts for chart updates. -/
def oneEach : State → ℕ := fun _ => 1

/-- Three non-distancing persons (C5 counterexample: percent 50 targets
`int(1.5) = 1` distancer while Python `round(1.5)` is 2). -/
def c5Persons : List Person :=
  [basicPerson 0 (100, 100) State.SUSCEPTIBLE boundsA,
   basicPerson 1 (150, 100) State.SUSCEPTIBLE boundsA,
   basicPerson 2 (200, 100) State.SUSCEPTIBLE boundsA]

/-- One distancer and two non-distancers (C5 witness input). -/
def c5wPersons : List Person :=
  [{ basicPerson 5 (100, 100) State.SUSCEPTIBLE boundsA with distancing := true },
   basicPerson 6 (150, 100) State.SUSCEPTIBLE boundsA,
   basicPerson 7 (200, 100) State.SUSCEPTIBLE boundsA]

/-- INFECTED person with no recorded infection start (as spawned by
`Person.__init__` with `state=State.INFECTED`). -/
def c7Person : Person := basicPerson 8 (200, 200) State.INFECTED boundsA

def c7wPerson : Person := basicPerson 9 (300, 300) State.INFECTED boundsA

/-- Traveling person for the C8 witness. -/
def c8Person : Person :=
  { basicPerson 10 (100, 100) State.RECOVERED boundsA with travel_target := some comT }

def c9Person : Person := basicPerson 11 (200, 200) State.SUSCEPTIBLE boundsA

/-- Neighbor at separation-vector length 0 from `c9Person`. -/
def c9Neighbor : Person := basicPerson 12 (200, 200) State.SUSCEPTIBLE boundsA

def c10Person : Person := basicPerson 13 (200, 200) State.SUSCEPTIBLE boundsA

/-! ## Helper lemmas -/

theorem le_clamp (x lo hi : ℤ) : lo ≤ clamp x lo hi := le_max_left _ _

theorem clamp_le (x lo hi : ℤ) (h : lo ≤ hi) : clamp x lo hi ≤ hi :=
  max_le h (min_le_left _ _)

theorem avoid_walls_eq (w : ℚ) (a : ℤ) (p : Person) :
    p.avoid_walls w a = p ∨ ∃ d, p.avoid_walls w a = { p with direction := d } := by
  unfold Person.avoid_walls
  dsimp only
  split
  · exact Or.inl rfl
  · exact Or.inr ⟨_, rfl⟩

theorem avoid_walls_bounds (w : ℚ) (a : ℤ) (p : Person) :
    (p.avoid_walls w a).bounds = p.bounds := by
  rcases avoid_walls_eq w a p with h | ⟨d, h⟩ <;> rw [h]

theorem avoid_walls_state (w : ℚ) (a : ℤ) (p : Person) :
    (p.avoid_walls w a).state = p.state := by
  rcases avoid_walls_eq w a p with h | ⟨d, h⟩ <;> rw [h]

theorem avoid_walls_start (w : ℚ) (a : ℤ) (p : Person) :
    (p.avoid_walls w a).infected_start = p.infected_start := by
  rcases avoid_walls_eq w a p with h | ⟨d, h⟩ <;> rw [h]

theorem avoid_walls_end (w : ℚ) (a : ℤ) (p : Person) :
    (p.avoid_walls w a).infected_end = p.infected_end := by
  rcases avoid_walls_eq w a p with h | ⟨d, h⟩ <;> rw [h]

theorem social_distance_shape (nears : List Person) (p : Person) :
    p.social_distance nears = p ∨
    ∃ d, p.social_distance nears = { p with direction := d } := by
  unfold Person.social_distance
  split
  · exact Or.inl rfl
  · exact Or.inr ⟨_, rfl⟩

theorem social_distance_bounds (nears : List Person) (p : Person) :
    (p.social_distance nears).bounds = p.bounds := by
  rcases social_distance_shape nears p with h | ⟨d, h⟩ <;> rw [h]

theorem social_distance_state (nears : List Person) (p : Person) :
    (p.social_distance nears).state = p.state := by
  rcases social_distance_shape nears p with h | ⟨d, h⟩ <;> rw [h]

theorem social_distance_start (nears : List Person) (p : Person) :
    (p.social_distance nears).infected_start = p.infected_start := by
  rcases social_distance_shape nears p with h | ⟨d, h⟩ <;> rw [h]

theorem social_distance_end (nears : List Person) (p : Person) :
    (p.social_distance nears).infected_end = p.infected_end := by
  rcases social_distance_shape nears p with h | ⟨d, h⟩ <;> rw [h]

theorem end_infection_bounds (now m dd : ℚ) (p : Person) :
    (p.end_infection now m dd).bounds = p.bounds := by
  unfold Person.end_infection Person.die Person.recover
  split <;> rfl

theorem handle_infection_ok (now : ℚ) (dr : Draws) (p : Person) (t0 : ℚ)
    (h : p.infected_start = some t0) :
    ∃ q, p.handle_infection now dr = Except.ok q ∧ q.bounds = p.bounds := by
  unfold Person.handle_infection
  rw [h]
  dsimp only
  split <;> split <;>
    exact ⟨_, rfl, by simp [apply_ite Person.bounds, end_infection_bounds]⟩

/-- `abLeft`/`abRight`/`abTop`/`abBottom` only read the `bounds` field. -/
theorem activeRegion_congr (p q : Person) (h : q.bounds = p.bounds) :
    q.activeRegion = p.activeRegion := by
  unfold Person.activeRegion Person.active_bounds
  rw [h]

/-! ## C2: DECEASED is absorbing -/

/-- C2: a DECEASED agent's tick is a no-op (`update` returns it unchanged:
no motion, no state change); a transmission attempt on a DECEASED target
never infects it (its chance is 0 and draws are nonnegative); the neighbor
query never returns DECEASED agents; and the infect-one pool never contains
DECEASED agents. -/
theorem c2_deceased_absorbing :
    (∀ (persons : List Person) (ft : ℚ) (dirT netT distT : Bool) (dr : Draws) (now : ℚ)
        (p : Person), p.state = State.DECEASED →
        Person.update persons ft dirT netT distT dr now p = Except.ok p)
    ∧ (∀ (s o : Person) (draw jit dd now : ℚ), 0 ≤ draw → o.state = State.DECEASED →
        Person.spreadTarget s o draw jit dd now = o)
    ∧ (∀ (persons : List Person) (p o : Person),
        o ∈ Person.get_nearby persons p → o.state ≠ State.DECEASED)
    ∧ (∀ (persons : List Person) (q : Person),
        q ∈ infectible_pool persons → q.state ≠ State.DECEASED) := by
  refine ⟨?_, ?_, ?_, ?_⟩
  · intro persons ft dirT netT distT dr now p h
    unfold Person.update
    rw [if_pos h]
  · intro s o draw jit dd now hdraw ho
    unfold Person.spreadTarget
    rw [if_neg]
    rintro ⟨-, hlt⟩
    rw [ho] at hlt
    simp only [infection_chance] at hlt
    exact absurd hlt (not_lt.2 hdraw)
  · intro persons p o ho
    simp only [Person.get_nearby, List.mem_filter, decide_eq_true_eq] at ho
    rcases ho with ⟨⟨-, -, hst, -, -⟩, -⟩
    exact hst
  · intro persons q hq
    simp only [infectible_pool, List.mem_filter, decide_eq_true_eq] at hq
    rcases hq.2 with h | h <;> simp [h]

/-- Witness for C2 at concrete inputs. -/
theorem c2_deceased_absorbing_witness :
    c2Person.state = State.DECEASED
    ∧ Person.update [] 0 false false false calmDraws 0 c2Person = Except.ok c2Person
    ∧ Person.spreadTarget c1wPerson c2Person 0 0 0 0 = c2Person :=
  ⟨rfl,
   c2_deceased_absorbing.1 [] 0 false false false calmDraws 0 c2Person rfl,
   c2_deceased_absorbing.2.1 c1wPerson c2Person 0 0 0 0 le_rfl rfl⟩

/-! ## C3: inbound transitions to INFECTED -/

/-- C3: the per-target transmission table is
{SUSCEPTIBLE: INFECTION_CHANCE, RECOVERED: REINFECTION_CHANCE, else 0};
a transmission attempt can move a target into INFECTED only from
SUSCEPTIBLE or RECOVERED (draws being nonnegative); a DECEASED target is
left untouched; and the infect-one pool only contains SUSCEPTIBLE or
RECOVERED agents. -/
theorem c3_infected_only_from_susceptible_or_recovered :
    (infection_chance State.SUSCEPTIBLE = INFECTION_CHANCE
      ∧ infection_chance State.RECOVERED = REINFECTION_CHANCE
      ∧ infection_chance State.INFECTED = 0
      ∧ infection_chance State.DECEASED = 0)
    ∧ (∀ (s o : Person) (draw jit dd now : ℚ), 0 ≤ draw →
        (Person.spreadTarget s o draw jit dd now).state = State.INFECTED →
        o.state ≠ State.INFECTED →
        o.state = State.SUSCEPTIBLE ∨ o.state = State.RECOVERED)
    ∧ (∀ (s o : Person) (draw jit dd now : ℚ), 0 ≤ draw → o.state = State.DECEASED →
        Person.spreadTarget s o draw jit dd now = o)
    ∧ (∀ (persons : List Person) (q : Person), q ∈ infectible_pool persons →
        q.state = State.SUSCEPTIBLE ∨ q.state = State.RECOVERED) := by
  refine ⟨⟨rfl, rfl, rfl, rfl⟩, ?_, ?_, ?_⟩
  · intro s o draw jit dd now hdraw hres hni
    cases ho : o.state with
    | SUSCEPTIBLE => exact Or.inl rfl
    | RECOVERED => exact Or.inr rfl
    | INFECTED => exact absurd ho hni
    | DECEASED =>
        unfold Person.spreadTarget at hres
        rw [if_neg] at hres
        · exact absurd (ho ▸ hres) hni
        · rintro ⟨-, hlt⟩
          rw [ho] at hlt
          simp only [infection_chance] at hlt
          exact absurd hlt (not_lt.2 hdraw)
  · intro s o draw jit dd now hdraw ho
    unfold Person.spreadTarget
    rw [if_neg]
    rintro ⟨-, hlt⟩
    rw [ho] at hlt
    simp only [infection_chance] at hlt
    exact absurd hlt (not_lt.2 hdraw)
  · intro persons q hq
    simp only [infectible_pool, List.mem_filter, decide_eq_true_eq] at hq
    exact hq.2

/-- Witness for C3 at concrete inputs: a transmission attempt on a DECEASED
target with draw 0 leaves it unchanged, and the chance table rows hold. -/
theorem c3_infected_only_from_susceptible_or_recovered_witness :
    c3Target.state = State.DECEASED
    ∧ Person.spreadTarget c3Spreader c3Target 0 0 0 0 = c3Target
    ∧ infection_chance State.DECEASED = 0 :=
  ⟨rfl,
   c3_infected_only_from_susceptible_or_recovered.2.2.1 c3Spreader c3Target 0 0 0 0 le_rfl rfl,
   c3_infected_only_from_susceptible_or_recovered.1.2.2.2⟩

/-! ## C6: infect-one on an empty pool -/

/-- C6: with an empty population the `INFECT_ONE_PERSON` handler's pool is
empty and `random.choice` raises `IndexError` — the handler is not a no-op
but an uncaught exception that aborts the event loop. -/
theorem c6_infect_one_empty_pool_raises :
    infectOnePerson [] 0 0 0 0
      = Except.error ("IndexError: Cannot choose from an empty sequence")
    ∧ infectible_pool [] = [] := ⟨rfl, rfl⟩

/-! ## C10: the neighbor query returns the agent itself -/

/-- C10: a live, non-traveling member of the population group appears in
its own `get_nearby` result (its rect collides with itself and its
self-distance 0 is below the distancing radius); the guards downstream
cope: `spread` skips `other is self`, and `social_distance` drops the
zero-length separation vector the agent has with itself. -/
theorem c10_get_nearby_contains_self (persons : List Person) (p : Person)
    (hmem : p ∈ persons) (hlive : p.state ≠ State.DECEASED)
    (htrav : p.travel_target = none) :
    p ∈ Person.get_nearby persons p
    ∧ (∀ draw jit dd now : ℚ, Person.spreadTarget p p draw jit dd now = p)
    ∧ sdForces p [p] = [] := by
  refine ⟨?_, ?_, ?_⟩
  · apply List.mem_filter.mpr
    refine ⟨List.mem_filter.mpr ⟨hmem, ?_⟩, ?_⟩
    · apply decide_eq_true
      exact ⟨⟨by norm_num [Person.surf_size], by norm_num [Person.surf_size]⟩,
             hlive, htrav, rfl⟩
    · apply decide_eq_true
      norm_num [distSq, Person.distancing_radius]
  · intro draw jit dd now
    unfold Person.spreadTarget
    rw [if_neg]
    rintro ⟨hne, -⟩
    exact hne rfl
  · simp [sdForces]

/-- Witness for C10: a concrete one-person population. -/
theorem c10_get_nearby_contains_self_witness :
    (c10Person ∈ [c10Person] ∧ c10Person.state ≠ State.DECEASED
      ∧ c10Person.travel_target = none)
    ∧ c10Person ∈ Person.get_nearby [c10Person] c10Person
    ∧ Person.spreadTarget c10Person c10Person 0 0 0 0 = c10Person
    ∧ sdForces c10Person [c10Person] = [] := by
  have h := c10_get_nearby_contains_self [c10Person] c10Person (by simp)
    (by simp [c10Person, basicPerson]) rfl
  exact ⟨⟨by simp, by simp [c10Person, basicPerson], rfl⟩, h.1, h.2.1 0 0 0 0, h.2.2⟩

/-! ## C9: zero-length separation vectors in the distancing force -/

theorem dv_ne_zero_of_center_ne (p o : Person) (h : ¬ o.center = p.center) :
    ((p.center.1 - o.center.1 : ℤ), (p.center.2 - o.center.2 : ℤ)) ≠ ((0 : ℤ), (0 : ℤ)) := by
  intro hdv
  apply h
  rw [Prod.mk.injEq] at hdv
  obtain ⟨h1, h2⟩ := hdv
  rw [sub_eq_zero] at h1 h2
  exact Prod.ext h1.symm h2.symm

theorem dv_eq_zero_of_center_eq (p o : Person) (h : o.center = p.center) :
    ((p.center.1 - o.center.1 : ℤ), (p.center.2 - o.center.2 : ℤ)) = ((0 : ℤ), (0 : ℤ)) := by
  rw [h]
  simp

theorem lengthV_zero : lengthV ((0 : ℝ), (0 : ℝ)) = 0 := by
  norm_num [lengthV]

/-- C9: neighbors at separation-vector length 0 are excluded from the force
sum (so a single such neighbor means no force and the update is the
identity — no division by zero is reached), and a degenerate blended
direction vector keeps the previous direction. -/
theorem c9_social_distance_degenerate_vectors :
    (∀ (p : Person) (nears : List Person),
        sdForces p nears
          = sdForces p (nears.filter (fun o => decide (¬ o.center = p.center))))
    ∧ (∀ (p o : Person), o.center = p.center → Person.social_distance [o] p = p)
    ∧ (∀ (p : Person) (nears : List Person),
        sdIntermediate p nears = ((0 : ℝ), (0 : ℝ)) →
        (Person.social_distance nears p).direction = p.direction) := by
  refine ⟨?_, ?_, ?_⟩
  · intro p nears
    induction nears with
    | nil => rfl
    | cons o t ih =>
        by_cases h : o.center = p.center
        · rw [List.filter_cons_of_neg (by simp [h])]
          rw [← ih]
          unfold sdForces
          rw [List.filterMap_cons_none]
          dsimp only
          rw [if_neg (by simpa using dv_eq_zero_of_center_eq p o h)]
        · rw [List.filter_cons_of_pos (by simp [h])]
          unfold sdForces
          rw [List.filterMap_cons_some, List.filterMap_cons_some]
          · exact congrArg _ (by simpa [sdForces] using ih)
          · dsimp only
            rw [if_pos (dv_ne_zero_of_center_ne p o h)]
          · dsimp only
            rw [if_pos (dv_ne_zero_of_center_ne p o h)]
  · intro p o h
    unfold Person.social_distance
    rw [if_pos]
    unfold sdForces
    rw [List.filterMap_cons_none]
    · simp
    · dsimp only
      rw [if_neg (by simpa using dv_eq_zero_of_center_eq p o h)]
  · intro p nears h
    unfold Person.social_distance
    split
    · rfl
    · show (if lengthV (sdIntermediate p nears) ≠ 0 then _ else p.direction) = p.direction
      rw [h, if_neg]
      simp only [ne_eq, not_not]
      exact lengthV_zero

/-- Witness for C9: one neighbor at center distance 0. -/
theorem c9_social_distance_degenerate_vectors_witness :
    c9Neighbor.center = c9Person.center
    ∧ Person.social_distance [c9Neighbor] c9Person = c9Person
    ∧ sdForces c9Person [c9Neighbor]
        = sdForces c9Person ([c9Neighbor].filter (fun o => decide (¬ o.center = c9Person.center))) :=
  ⟨rfl,
   c9_social_distance_degenerate_vectors.2.1 c9Person c9Neighbor rfl,
   c9_social_distance_degenerate_vectors.1 c9Person [c9Neighbor]⟩

/-! ## C4: chart buffer length -/

/-- C4 counterexample: a pending event marker is appended without head
truncation, so one update on a full buffer of width 3 leaves 4 entries. -/
theorem c4_counterexample :
    c4Chart.data.length = c4Chart.width
    ∧ c4Chart.width = 3
    ∧ (c4Chart.update 5 oneEach).map Chart.dataLength = Except.ok 4 := by
  refine ⟨rfl, rfl, ?_⟩
  unfold Chart.update
  rw [if_pos (by norm_num [c4Chart, chart_update_interval])]
  rfl

/-- C4 amended: under the sampling gate and the maintained `width ≤ length`
invariant, appending a proportional sample with a nonzero population total
leaves the buffer at exactly the configured width; with an empty population
the proportional branch raises ZeroDivisionError instead; and appending a
pending event marker skips truncation and grows the buffer by one. -/
theorem c4_chart_buffer_length_amended (c : Chart) (now : ℚ) (counts : State → ℕ)
    (hgate : now - c.last_update ≥ chart_update_interval)
    (hlen : c.width ≤ c.data.length) :
    (c.event_marker = none → chartTotal counts ≠ 0 →
        (c.update now counts).map Chart.dataLength = Except.ok c.width)
    ∧ (c.event_marker = none → chartTotal counts = 0 →
        c.update now counts = Except.error ("ZeroDivisionError: division by zero"))
    ∧ (∀ m, c.event_marker = some m →
        (c.update now counts).map Chart.dataLength = Except.ok (c.data.length + 1)) := by
  refine ⟨?_, ?_, ?_⟩
  · intro hm htot
    unfold Chart.update pySliceFrom
    rw [if_pos hgate, hm]
    dsimp only
    rw [if_neg htot]
    split
    · split
      · simp only [Except.map, Chart.dataLength, List.length_drop, List.length_append,
          List.length_singleton]
        congr 1
        omega
      · rename_i hneg
        exfalso
        simp only [List.length_append, List.length_singleton, not_le] at hneg
        omega
    · rename_i hzero
      exfalso
      simp only [ne_eq, not_not, List.length_append, List.length_singleton] at hzero
      omega
  · intro hm htot
    unfold Chart.update
    rw [if_pos hgate, hm]
    dsimp only
    rw [if_pos htot]
    rfl
  · intro m hm
    unfold Chart.update
    rw [if_pos hgate, hm]
    simp only [Except.map]
    simp [Chart.dataLength]

/-- Witness for the C4 amended theorem: proportional append with a nonzero
total on a full width-3 buffer keeps length 3. -/
theorem c4_chart_buffer_length_amended_witness :
    ((5 : ℚ) - c4wChart.last_update ≥ chart_update_interval
      ∧ c4wChart.width ≤ c4wChart.data.length
      ∧ c4wChart.event_marker = none
      ∧ chartTotal oneEach ≠ 0)
    ∧ (c4wChart.update 5 oneEach).map Chart.dataLength = Except.ok c4wChart.width := by
  have h := c4_chart_buffer_length_amended c4wChart 5 oneEach
    (by norm_num [c4wChart, chart_update_interval]) (by simp [c4wChart])
  exact ⟨⟨by norm_num [c4wChart, chart_update_interval], by simp [c4wChart], rfl,
    by decide⟩, h.1 rfl (by decide)⟩

/-! ## Step lemmas for `Person.operate` -/

theorem noiseStep_bounds (dr : Draws) (p : Person) : (noiseStep dr p).bounds = p.bounds := by
  unfold noiseStep; split <;> rfl

theorem noiseStep_state (dr : Draws) (p : Person) : (noiseStep dr p).state = p.state := by
  unfold noiseStep; split <;> rfl

theorem noiseStep_start (dr : Draws) (p : Person) :
    (noiseStep dr p).infected_start = p.infected_start := by
  unfold noiseStep; split <;> rfl

theorem noiseStep_end (dr : Draws) (p : Person) :
    (noiseStep dr p).infected_end = p.infected_end := by
  unfold noiseStep; split <;> rfl

theorem infectionStep_ok (now : ℚ) (dr : Draws) (p : Person) :
    ∃ q, infectionStep now dr p = Except.ok q ∧ q.bounds = p.bounds := by
  unfold infectionStep
  split
  · rename_i hg
    obtain ⟨t0, ht0⟩ := Option.ne_none_iff_exists'.mp hg.2
    exact handle_infection_ok now dr p t0 ht0
  · exact ⟨p, rfl, rfl⟩

theorem infectionStep_skip (now : ℚ) (dr : Draws) (p : Person)
    (h : p.infected_start = none) : infectionStep now dr p = Except.ok p := by
  unfold infectionStep
  rw [if_neg]
  rintro ⟨-, hne⟩
  exact hne h

theorem motionStep_state (nears : List Person) (distT : Bool) (ft : ℚ) (q : Person) :
    (motionStep nears distT ft q).state = q.state := by
  unfold motionStep Person.stay_in_bounds
  dsimp only
  split
  · exact social_distance_state nears q
  · rfl

theorem motionStep_start (nears : List Person) (distT : Bool) (ft : ℚ) (q : Person) :
    (motionStep nears distT ft q).infected_start = q.infected_start := by
  unfold motionStep Person.stay_in_bounds
  dsimp only
  split
  · exact social_distance_start nears q
  · rfl

theorem motionStep_end (nears : List Person) (distT : Bool) (ft : ℚ) (q : Person) :
    (motionStep nears distT ft q).infected_end = q.infected_end := by
  unfold motionStep Person.stay_in_bounds
  dsimp only
  split
  · exact social_distance_end nears q
  · rfl

theorem abLeft_congr {p q : Person} (h : q.bounds = p.bounds) : abLeft q = abLeft p := by
  unfold abLeft; rw [activeRegion_congr p q h]

theorem abRight_congr {p q : Person} (h : q.bounds = p.bounds) : abRight q = abRight p := by
  unfold abRight; rw [activeRegion_congr p q h]

theorem abTop_congr {p q : Person} (h : q.bounds = p.bounds) : abTop q = abTop p := by
  unfold abTop; rw [activeRegion_congr p q h]

theorem abBottom_congr {p q : Person} (h : q.bounds = p.bounds) : abBottom q = abBottom p := by
  unfold abBottom; rw [activeRegion_congr p q h]

theorem stay_in_bounds_inBounds (r : Person)
    (hx : abLeft r + Person.radius ≤ abRight r - Person.radius)
    (hy : abTop r + Person.radius ≤ abBottom r - Person.radius) :
    inBoundsInsetB r.stay_in_bounds = true := by
  unfold inBoundsInsetB Person.stay_in_bounds
  apply decide_eq_true
  have hb : ({ r with center := (clamp r.center.1 (abLeft r + Person.radius) (abRight r - Person.radius), clamp r.center.2 (abTop r + Person.radius) (abBottom r - Person.radius)) } : Person).bounds = r.bounds := rfl
  refine ⟨?_, ?_, ?_, ?_⟩
  · rw [abLeft_congr hb]; exact le_clamp _ _ _
  · rw [abRight_congr hb]; exact clamp_le _ _ _ hx
  · rw [abTop_congr hb]; exact le_clamp _ _ _
  · rw [abBottom_congr hb]; exact clamp_le _ _ _ hy

theorem motionStep_bounds (nears : List Person) (distT : Bool) (ft : ℚ) (q : Person) :
    (motionStep nears distT ft q).bounds = q.bounds := by
  unfold motionStep Person.stay_in_bounds
  dsimp only
  split
  · exact social_distance_bounds nears q
  · rfl

theorem motionStep_inBounds (nears : List Person) (distT : Bool) (ft : ℚ) (q : Person)
    (hx : abLeft q + Person.radius ≤ abRight q - Person.radius)
    (hy : abTop q + Person.radius ≤ abBottom q - Person.radius) :
    inBoundsInsetB (motionStep nears distT ft q) = true := by
  unfold motionStep
  dsimp only
  apply stay_in_bounds_inBounds
  · have hb : (({ (if distT ∧ q.distancing ∧ ¬ nears.isEmpty then q.social_distance nears else q) with center :=
      ((if distT ∧ q.distancing ∧ ¬ nears.isEmpty then q.social_distance nears else q).center.1 + truncR ((if distT ∧ q.distancing ∧ ¬ nears.isEmpty then q.social_distance nears else q).direction.1 * (Person.speed : ℝ) * (ft : ℝ)),
       (if distT ∧ q.distancing ∧ ¬ nears.isEmpty then q.social_distance nears else q).center.2 + truncR ((if distT ∧ q.distancing ∧ ¬ nears.isEmpty then q.social_distance nears else q).direction.2 * (Person.speed : ℝ) * (ft : ℝ))) }) : Person).bounds = q.bounds := by
      show (if distT ∧ q.distancing ∧ ¬ nears.isEmpty then q.social_distance nears else q).bounds = q.bounds
      split
      · exact social_distance_bounds nears q
      · rfl
    rw [abLeft_congr hb, abRight_congr hb]
    exact hx
  · have hb : (({ (if distT ∧ q.distancing ∧ ¬ nears.isEmpty then q.social_distance nears else q) with center :=
      ((if distT ∧ q.distancing ∧ ¬ nears.isEmpty then q.social_distance nears else q).center.1 + truncR ((if distT ∧ q.distancing ∧ ¬ nears.isEmpty then q.social_distance nears else q).direction.1 * (Person.speed : ℝ) * (ft : ℝ)),
       (if distT ∧ q.distancing ∧ ¬ nears.isEmpty then q.social_distance nears else q).center.2 + truncR ((if distT ∧ q.distancing ∧ ¬ nears.isEmpty then q.social_distance nears else q).direction.2 * (Person.speed : ℝ) * (ft : ℝ))) }) : Person).bounds = q.bounds := by
      show (if distT ∧ q.distancing ∧ ¬ nears.isEmpty then q.social_distance nears else q).bounds = q.bounds
      split
      · exact social_distance_bounds nears q
      · rfl
    rw [abTop_congr hb, abBottom_congr hb]
    exact hy

/-! ## C1: containment -/

/-- C1 amended: for a live (non-DECEASED), non-traveling agent, one
`update` tick always ends with the center clamped inside the active bounds
inset by the agent radius on all sides, provided the inset interval is
nonempty.  (Mid-travel ticks are exempt — see the counterexample.) -/
theorem c1_containment_amended (persons : List Person) (ft : ℚ)
    (dirT netT distT : Bool) (dr : Draws) (now : ℚ) (p : Person)
    (hlive : p.state ≠ State.DECEASED) (htrav : p.travel_target = none)
    (hx : abLeft p + Person.radius ≤ abRight p - Person.radius)
    (hy : abTop p + Person.radius ≤ abBottom p - Person.radius) :
    (Person.update persons ft dirT netT distT dr now p).map inBoundsInsetB
      = Except.ok true := by
  unfold Person.update
  rw [if_neg hlive, if_neg (by simp [htrav])]
  unfold Person.operate
  dsimp only
  obtain ⟨p3, h3, hb3⟩ :=
    infectionStep_ok now dr ((noiseStep dr p).avoid_walls dr.wall dr.wallAngle)
  rw [h3]
  simp only [Except.map]
  have hb2 : ((noiseStep dr p).avoid_walls dr.wall dr.wallAngle).bounds = p.bounds := by
    rw [avoid_walls_bounds, noiseStep_bounds]
  have hbp3 : p3.bounds = p.bounds := hb3.trans hb2
  exact congrArg Except.ok (motionStep_inBounds _ distT ft p3
    (by rw [abLeft_congr hbp3, abRight_congr hbp3]; exact hx)
    (by rw [abTop_congr hbp3, abBottom_congr hbp3]; exact hy))

theorem c1wPerson_edges :
    abLeft c1wPerson = 2 ∧ abRight c1wPerson = 400
      ∧ abTop c1wPerson = 2 ∧ abBottom c1wPerson = 400 := by
  refine ⟨?_, ?_, ?_, ?_⟩ <;>
    norm_num [abLeft, abRight, abTop, abBottom, Person.activeRegion, Person.active_bounds,
      c1wPerson, basicPerson, boundsA, comA, regA, Region.left, Region.top, Region.right,
      Region.bottom, pyIntQ]

/-- Witness for the C1 amended theorem at a concrete live agent in
community A. -/
theorem c1_containment_amended_witness :
    (c1wPerson.state ≠ State.DECEASED ∧ c1wPerson.travel_target = none
      ∧ abLeft c1wPerson + Person.radius ≤ abRight c1wPerson - Person.radius
      ∧ abTop c1wPerson + Person.radius ≤ abBottom c1wPerson - Person.radius)
    ∧ (Person.update [] 1 false false false calmDraws 0 c1wPerson).map inBoundsInsetB
        = Except.ok true := by
  obtain ⟨e1, e2, e3, e4⟩ := c1wPerson_edges
  refine ⟨⟨by decide, rfl, by rw [e1, e2]; decide, by rw [e3, e4]; decide⟩, ?_⟩
  exact c1_containment_amended [] 1 false false false calmDraws 0 c1wPerson
    (by decide) rfl (by rw [e1, e2]; decide) (by rw [e3, e4]; decide)

/-! ## C7: INFECTED with no recorded start -/

/-- C7 amended: `handle_infection` does abort loudly (RuntimeError) when
invoked with `infected_start` unset, but the per-tick update never invokes
it in that situation: `operate`'s guard `self.state == INFECTED and
self.infected_start` silently skips infection handling, and the tick
completes normally with the agent left INFECTED and unstamped. -/
theorem c7_invalid_infection_start_amended (persons : List Person) (ft : ℚ)
    (dirT netT distT : Bool) (dr : Draws) (now : ℚ) (p : Person)
    (hstate : p.state = State.INFECTED) (hstart : p.infected_start = none)
    (htrav : p.travel_target = none) :
    p.handle_infection now dr
        = Except.error ("RuntimeError: Infection start time not found")
    ∧ (Person.update persons ft dirT netT distT dr now p).map infectionView
        = Except.ok (State.INFECTED, (none : Option ℚ), p.infected_end) := by
  constructor
  · unfold Person.handle_infection
    rw [hstart]
  · unfold Person.update
    rw [if_neg (by simp [hstate]), if_neg (by simp [htrav])]
    unfold Person.operate
    dsimp only
    rw [infectionStep_skip now dr _ (by rw [avoid_walls_start, noiseStep_start]; exact hstart)]
    simp only [Except.map]
    unfold infectionView
    rw [motionStep_state, motionStep_start, motionStep_end,
        avoid_walls_state, avoid_walls_start, avoid_walls_end,
        noiseStep_state, noiseStep_start, noiseStep_end, hstate, hstart]

/-- C7 counterexample: an agent spawned INFECTED with `infected_start`
unset ticks through `update` without any error — the condition is silently
ignored, not a fatal abort. -/
theorem c7_counterexample :
    c7Person.state = State.INFECTED
    ∧ c7Person.infected_start = none
    ∧ (Person.update [] 0 false false false calmDraws 0 c7Person).map infectionView
        = Except.ok (State.INFECTED, (none : Option ℚ), (none : Option ℚ)) := by
  refine ⟨rfl, rfl, ?_⟩
  unfold Person.update
  rw [if_neg (by decide), if_neg (by decide)]
  unfold Person.operate
  dsimp only
  rw [infectionStep_skip 0 calmDraws _ (by rw [avoid_walls_start, noiseStep_start]; rfl)]
  simp only [Except.map]
  unfold infectionView
  rw [motionStep_state, motionStep_start, motionStep_end,
      avoid_walls_state, avoid_walls_start, avoid_walls_end,
      noiseStep_state, noiseStep_start, noiseStep_end]
  rfl

/-- Witness for the C7 amended theorem. -/
theorem c7_invalid_infection_start_amended_witness :
    (c7wPerson.state = State.INFECTED ∧ c7wPerson.infected_start = none
      ∧ c7wPerson.travel_target = none)
    ∧ Person.handle_infection 0 calmDraws c7wPerson
        = Except.error ("RuntimeError: Infection start time not found")
    ∧ (Person.update [] 0 false false false calmDraws 0 c7wPerson).map infectionView
        = Except.ok (State.INFECTED, (none : Option ℚ), c7wPerson.infected_end) := by
  have h := c7_invalid_infection_start_amended [] 0 false false false calmDraws 0
    c7wPerson rfl rfl rfl
  exact ⟨⟨rfl, rfl, rfl⟩, h.1, h.2⟩

/-! ## C8: travel transit and arrival -/

/-- C8: for an agent with a travel target set, the tick runs `travel`
(normal operation suspended) and the result satisfies `travelSpec`:
steering at the hub center with the travel speed multiplier, community
reassignment and target clearing exactly on entering the hub rectangle. -/
theorem c8_travel_transit_and_arrival (persons : List Person) (ft : ℚ)
    (dirT netT distT : Bool) (dr : Draws) (now : ℚ) (p : Person) (T : Community)
    (hT : p.travel_target = some T) (hlive : p.state ≠ State.DECEASED) :
    ∃ q, Person.update persons ft dirT netT distT dr now p = Except.ok q
      ∧ travelSpec p q T ft := by
  unfold Person.update
  rw [if_neg hlive, if_pos (by rw [hT]; rfl)]
  unfold Person.travel
  rw [hT]
  dsimp only
  unfold travelSpec
  split <;> split <;> rename_i hc
  all_goals first
    | exact ⟨_, rfl, rfl, rfl, rfl, rfl, rfl, rfl, fun _ => ⟨rfl, rfl⟩, fun hn => absurd hc hn⟩
    | exact ⟨_, rfl, rfl, rfl, rfl, rfl, rfl, rfl, fun hcon => absurd hcon hc,
            fun _ => ⟨rfl, rfl⟩⟩

/-- Witness for C8 at a concrete traveler. -/
theorem c8_travel_transit_and_arrival_witness :
    (c8Person.travel_target = some comT ∧ c8Person.state ≠ State.DECEASED)
    ∧ ∃ q, Person.update [] 1 false false false calmDraws 0 c8Person = Except.ok q
        ∧ travelSpec c8Person q comT 1 :=
  ⟨⟨rfl, by decide⟩,
   c8_travel_transit_and_arrival [] 1 false false false calmDraws 0 c8Person comT
     rfl (by decide)⟩

/-! ## C1 counterexample machinery: one concrete eastward travel tick -/

theorem truncR_intCast (n : ℤ) : truncR ((n : ℤ) : ℝ) = n := by
  unfold truncR
  split
  · rw [← Int.cast_neg, Int.floor_intCast, neg_neg]
  · rw [Int.floor_intCast]

/-- One `travel` tick of an agent exactly `d > 0` to the west of its
target's hub center, with frame time 1: the direction normalizes to
`(1, 0)` and the agent moves 360 pixels east. -/
theorem travel_step_east (p : Person) (T : Community) (d : ℤ)
    (hT : p.travel_target = some T) (hd : 0 < d)
    (hx : T.hubCenter.1 - p.center.1 = d) (hy : T.hubCenter.2 - p.center.2 = 0)
    (hnot : ¬ T.hubContains (p.center.1 + 360, p.center.2)) :
    p.travel 1 = Except.ok { p with direction := ((1 : ℝ), (0 : ℝ)),
                                    center := (p.center.1 + 360, p.center.2) } := by
  have hnorm : normalizeV (((d : ℤ) : ℝ), ((0 : ℤ) : ℝ)) = (1, 0) := by
    unfold normalizeV lengthV
    have hdr : (0 : ℝ) < (d : ℝ) := by exact_mod_cast hd
    have hsq : Real.sqrt (((d : ℤ) : ℝ) ^ 2 + ((0 : ℤ) : ℝ) ^ 2) = (d : ℝ) := by
      rw [show (((d : ℤ) : ℝ) ^ 2 + ((0 : ℤ) : ℝ) ^ 2) = ((d : ℤ) : ℝ) ^ 2 by push_cast; ring]
      exact Real.sqrt_sq hdr.le
    rw [hsq]
    simp [div_self (ne_of_gt hdr)]
  have hne : ((d : ℤ), (0 : ℤ)) ≠ ((0 : ℤ), (0 : ℤ)) := by
    intro hp
    rw [Prod.mk.injEq] at hp
    omega
  unfold Person.travel
  rw [hT]
  dsimp only
  rw [hx, hy]
  rw [show (if ((d : ℤ), (0 : ℤ)) ≠ ((0 : ℤ), (0 : ℤ))
        then normalizeV (((d : ℤ) : ℝ), ((0 : ℤ) : ℝ)) else p.direction)
      = ((1 : ℝ), (0 : ℝ)) from by rw [if_pos hne]; exact hnorm]
  dsimp only
  have hdx : truncR ((1 : ℝ) * (Person.speed : ℝ) * (TRAVEL_SPEED_MULTIPLIER : ℝ)
      * ((1 : ℚ) : ℝ)) = 360 := by
    rw [show ((1 : ℝ) * (Person.speed : ℝ) * (TRAVEL_SPEED_MULTIPLIER : ℝ) * ((1 : ℚ) : ℝ))
        = ((360 : ℤ) : ℝ) by norm_num [Person.speed, TRAVEL_SPEED_MULTIPLIER]]
    exact truncR_intCast 360
  have hdy : truncR ((0 : ℝ) * (Person.speed : ℝ) * (TRAVEL_SPEED_MULTIPLIER : ℝ)
      * ((1 : ℚ) : ℝ)) = 0 := by
    rw [show ((0 : ℝ) * (Person.speed : ℝ) * (TRAVEL_SPEED_MULTIPLIER : ℝ) * ((1 : ℚ) : ℝ))
        = ((0 : ℤ) : ℝ) by norm_num]
    exact truncR_intCast 0
  rw [hdx, hdy]
  simp only [add_zero]
  rw [if_neg hnot]

theorem comT_hub_values : comT.hubLeft = 585 ∧ comT.hubTop = 185 := by
  have h400 : (400 : ℤ) / 2 = 200 := by decide
  have h30 : center_size / 2 = 15 := by decide
  constructor <;>
    norm_num [Community.hubLeft, Community.hubTop, comT, regT, Region.left, Region.top,
      h400, h30, pyIntQ]

/-- C1 counterexample: a mid-travel tick violates containment.  `c1Person`
starts inside its active community A (center (385, 200), inset bounds
[7, 395]²) while traveling toward `comT`; one `update` tick moves it 360
pixels toward `comT`'s hub center (600, 200), to x = 745, far outside its
active bounds — `travel` never clamps (it even overshoots the hub, whose
overlap is only checked at the end of the move). -/
theorem c1_counterexample :
    inBoundsInsetB c1Person = true
    ∧ (Person.update [] 1 false false false calmDraws 0 c1Person).map inBoundsInsetB
        = Except.ok false := by
  obtain ⟨e1, e2, e3, e4⟩ := c1wPerson_edges
  have hb : c1Person.bounds = c1wPerson.bounds := rfl
  have f1 : abLeft c1Person = 2 := (abLeft_congr hb).trans e1
  have f2 : abRight c1Person = 400 := (abRight_congr hb).trans e2
  have f3 : abTop c1Person = 2 := (abTop_congr hb).trans e3
  have f4 : abBottom c1Person = 400 := (abBottom_congr hb).trans e4
  obtain ⟨hubx, huby⟩ := comT_hub_values
  constructor
  · unfold inBoundsInsetB
    apply decide_eq_true
    rw [f1, f2, f3, f4]
    exact ⟨by decide, by decide, by decide, by decide⟩
  · unfold Person.update
    rw [if_neg (by decide),
        if_pos (by decide : c1Person.travel_target.isSome = true)]
    rw [travel_step_east c1Person comT 215 rfl (by decide)
      (by unfold Community.hubCenter; dsimp only; rw [hubx]; decide)
      (by unfold Community.hubCenter; dsimp only; rw [huby]; decide)
      (by intro hcon
          unfold Community.hubContains at hcon
          obtain ⟨-, h2, -, -⟩ := hcon
          rw [hubx] at h2
          exact absurd h2 (by decide))]
    simp only [Except.map]
    apply congrArg
    unfold inBoundsInsetB
    apply decide_eq_false
    rintro ⟨-, h2, -, -⟩
    have hbq : ({ c1Person with
        direction := ((1 : ℝ), (0 : ℝ))
        center := (c1Person.center.1 + 360, c1Person.center.2) } : Person).bounds
        = c1wPerson.bounds := rfl
    rw [abRight_congr hbq, e2] at h2
    exact absurd h2 (by decide)

/-! ## C5: distancing rebalance counting -/

/-- Flipping the `distancing` flag to `b` on a sampled id set `S` drawn from
the pool of persons whose flag differs from `b` changes the distancer count
by exactly `S.length` (up for `b = true`, down for `b = false`). -/
theorem flip_filter_length (l : List Person) (S : List ℕ) (b : Bool)
    (hids : (l.map Person.id).Nodup) (hS : S.Nodup)
    (hsub : ∀ s ∈ S, s ∈ (l.filter (fun q => q.distancing ≠ b)).map Person.id) :
    ((l.map (fun q => if q.id ∈ S then { q with distancing := b } else q)).filter
        (fun q => q.distancing)).length + (if b then 0 else S.length)
    = (l.filter (fun q => q.distancing)).length + (if b then S.length else 0) := by
  induction l generalizing S with
  | nil =>
      have hS0 : S = [] := by
        cases S with
        | nil => rfl
        | cons s t => exact absurd (hsub s (by simp)) (by simp)
      subst hS0
      simp
  | cons q t ih =>
      have hqid : q.id ∉ t.map Person.id := by
        simp only [List.map_cons, List.nodup_cons] at hids
        exact hids.1
      have hids' : (t.map Person.id).Nodup := by
        simp only [List.map_cons, List.nodup_cons] at hids
        exact hids.2
      by_cases hq : q.id ∈ S
      · have hqd : q.distancing ≠ b := by
          intro hqb
          have hmem := hsub q.id hq
          rw [List.filter_cons_of_neg (by simp [hqb])] at hmem
          obtain ⟨q', hq', hqe⟩ := List.mem_map.mp hmem
          exact hqid (List.mem_map.mpr ⟨q', (List.mem_filter.mp hq').1, hqe⟩)
        have hS' : (S.erase q.id).Nodup := hS.erase _
        have hlenS : S.length = (S.erase q.id).length + 1 := by
          have h1 : (S.erase q.id).length = S.length - 1 := List.length_erase_of_mem hq
          have h2 : 0 < S.length := List.length_pos.mpr (by rintro rfl; simp at hq)
          omega
        have hsub' : ∀ s ∈ S.erase q.id,
            s ∈ (t.filter (fun r => r.distancing ≠ b)).map Person.id := by
          intro s hs
          have hsS : s ∈ S := List.mem_of_mem_erase hs
          have hsne : s ≠ q.id := by
            rintro rfl
            exact (List.Nodup.not_mem_erase hS) hs
          have hmem := hsub s hsS
          rw [List.filter_cons_of_pos (by simpa using hqd)] at hmem
          simp only [List.map_cons, List.mem_cons] at hmem
          rcases hmem with h | h
          · exact absurd h hsne
          · exact h
        rw [List.map_cons, if_pos hq]
        have hmapeq : t.map (fun r => if r.id ∈ S then { r with distancing := b } else r)
            = t.map (fun r => if r.id ∈ S.erase q.id then { r with distancing := b } else r) := by
          apply List.map_congr_left
          intro r hr
          have hrne : r.id ≠ q.id := by
            intro h
            exact hqid (h ▸ List.mem_map.mpr ⟨r, hr, rfl⟩)
          by_cases hrS : r.id ∈ S
          · rw [if_pos hrS, if_pos ((List.mem_erase_of_ne hrne).mpr hrS)]
          · rw [if_neg hrS, if_neg (fun hc => hrS (List.mem_of_mem_erase hc))]
        rw [hmapeq]
        have IH := ih (S.erase q.id) hids' hS' hsub'
        cases b with
        | true =>
            rw [List.filter_cons_of_pos (by simp)]
            rw [List.filter_cons_of_neg (by simpa using hqd)]
            simp only [List.length_cons, if_true] at IH ⊢
            omega
        | false =>
            rw [List.filter_cons_of_neg (by simp)]
            rw [List.filter_cons_of_pos (by simpa using hqd)]
            simp only [List.length_cons, Bool.false_eq_true, if_false] at IH ⊢
            omega
      · have hsub' : ∀ s ∈ S, s ∈ (t.filter (fun r => r.distancing ≠ b)).map Person.id := by
          intro s hs
          have hmem := hsub s hs
          by_cases hqb : q.distancing ≠ b
          · rw [List.filter_cons_of_pos (by simpa using hqb)] at hmem
            simp only [List.map_cons, List.mem_cons] at hmem
            rcases hmem with h | h
            · exact absurd (h ▸ hs) hq
            · exact h
          · rw [List.filter_cons_of_neg (by simpa using hqb)] at hmem
            exact hmem
        have IH := ih S hids' hS hsub'
        rw [List.map_cons, if_neg hq]
        by_cases hqd : q.distancing
        · rw [List.filter_cons_of_pos (by simpa using hqd),
              List.filter_cons_of_pos (by simpa using hqd)]
          simp only [List.length_cons]
          omega
        · rw [List.filter_cons_of_neg (by simpa using hqd),
              List.filter_cons_of_neg (by simpa using hqd)]
          omega

/-- C5 amended: after one `ADJUST_DISTANCING_PERCENT` rebalance, the number
of distancing agents equals `int(distancing_percent/100 * len(persons))` —
Python `int` truncation, not `round` — whenever the sample (`chosen`, the
ids handed back by `random.sample` from the appropriate pool) has the
required size `abs(diff)`. -/
theorem c5_rebalance_amended (percent : ℚ) (persons : List Person) (chosen : List ℕ)
    (hids : (persons.map Person.id).Nodup) (hch : chosen.Nodup)
    (hsub : ∀ s ∈ chosen, s ∈ (adjustPool percent persons).map Person.id)
    (hlen : (chosen.length : ℤ)
      = |pyIntQ (percent / 100 * (persons.length : ℚ))
          - ((persons.filter (fun q => q.distancing)).length : ℤ)|) :
    (((adjustDistancingPercent percent persons chosen).filter
        (fun q => q.distancing)).length : ℤ)
      = pyIntQ (percent / 100 * (persons.length : ℚ)) := by
  unfold adjustDistancingPercent
  dsimp only
  split
  · rename_i hdiff
    have key := flip_filter_length persons chosen
      (decide (0 < pyIntQ (percent / 100 * (persons.length : ℚ))
        - ((persons.filter (fun q => q.distancing)).length : ℤ)))
      hids hch (fun s hs => hsub s hs)
    by_cases hpos : 0 < pyIntQ (percent / 100 * (persons.length : ℚ))
        - ((persons.filter (fun q => q.distancing)).length : ℤ)
    · rw [decide_eq_true hpos] at key ⊢
      simp only [if_true] at key
      have habs : (chosen.length : ℤ)
          = pyIntQ (percent / 100 * (persons.length : ℚ))
            - ((persons.filter (fun q => q.distancing)).length : ℤ) := by
        rw [hlen]
        exact abs_of_pos hpos
      omega
    · have hneg : pyIntQ (percent / 100 * (persons.length : ℚ))
          - ((persons.filter (fun q => q.distancing)).length : ℤ) < 0 := by
        omega
      rw [decide_eq_false hpos] at key ⊢
      simp only [Bool.false_eq_true, if_false] at key
      have habs : (chosen.length : ℤ)
          = -(pyIntQ (percent / 100 * (persons.length : ℚ))
            - ((persons.filter (fun q => q.distancing)).length : ℤ)) := by
        rw [hlen]
        exact abs_of_neg hneg
      omega
  · rename_i hdiff
    simp only [ne_eq, not_not] at hdiff
    omega

/-- C5 counterexample: three non-distancing agents, percent 50.  The code's
`int(0.5 * 3) = 1` makes exactly one agent distance, while the claimed
`round(0.5 * 3)` is 2. -/
theorem c5_counterexample :
    ((adjustDistancingPercent 50 c5Persons [0]).filter (fun q => q.distancing)).length = 1
    ∧ pyRound (50 / 100 * (c5Persons.length : ℚ)) = 2 := by
  constructor
  · have htarget : pyIntQ (50 / 100 * ((c5Persons.length : ℕ) : ℚ)) = 1 := by
      norm_num [pyIntQ, c5Persons]
    unfold adjustDistancingPercent
    dsimp only
    rw [htarget]
    norm_num [c5Persons, basicPerson, List.filter]
  · have h1 : (50 / 100 * ((c5Persons.length : ℕ) : ℚ)) = 3 / 2 := by
      norm_num [c5Persons]
    rw [pyRound, h1]
    norm_num

/-- Witness for the C5 amended theorem: one distancer plus two
non-distancers rebalanced to percent 100 yields 3 = int(1.0 * 3)
distancers. -/
theorem c5_rebalance_amended_witness :
    ((c5wPersons.map Person.id).Nodup ∧ ([6, 7] : List ℕ).Nodup
      ∧ (∀ s ∈ ([6, 7] : List ℕ), s ∈ (adjustPool 100 c5wPersons).map Person.id)
      ∧ (([6, 7] : List ℕ).length : ℤ)
          = |pyIntQ (100 / 100 * (c5wPersons.length : ℚ))
              - ((c5wPersons.filter (fun q => q.distancing)).length : ℤ)|)
    ∧ (((adjustDistancingPercent 100 c5wPersons [6, 7]).filter
        (fun q => q.distancing)).length : ℤ)
      = pyIntQ (100 / 100 * (c5wPersons.length : ℚ)) := by
  have htarget : pyIntQ (100 / 100 * ((c5wPersons.length : ℕ) : ℚ)) = 3 := by
    norm_num [pyIntQ, c5wPersons]
  have hids : (c5wPersons.map Person.id).Nodup := by
    norm_num [c5wPersons, basicPerson]
  have hch : ([6, 7] : List ℕ).Nodup := by decide
  have hsub : ∀ s ∈ ([6, 7] : List ℕ), s ∈ (adjustPool 100 c5wPersons).map Person.id := by
    have hpool : (adjustPool 100 c5wPersons).map Person.id = [6, 7] := by
      unfold adjustPool
      dsimp only
      rw [htarget]
      norm_num [c5wPersons, basicPerson, List.filter]
    rw [hpool]
    intro s hs
    exact hs
  have hlen : (([6, 7] : List ℕ).length : ℤ)
      = |pyIntQ (100 / 100 * (c5wPersons.length : ℚ))
          - ((c5wPersons.filter (fun q => q.distancing)).length : ℤ)| := by
    rw [htarget]
    norm_num [c5wPersons, basicPerson, List.filter]
  exact ⟨⟨hids, hch, hsub, hlen⟩,
    c5_rebalance_amended 100 c5wPersons [6, 7] hids hch hsub hlen⟩
